import Mathlib

/-!
Verification of the SFL roof estimator's calculation pipeline.

This file is a shallow embedding, in Lean 4, of the calculation services of
the repository `sfl-roof-estimator`:

* `src/lib/calculations/pricing.ts` — `PricingCalculationService`
  (`calculateSectionPrice`, `getPricingMatrix`);
* `src/lib/calculations/waste.ts` — `WasteCalculationService`
  (`getAdderForValue`, `calculateWaste`);
* `src/lib/calculations/finance.ts` — `FinanceCalculationService`
  (`calculateFinancingOptions`, `calculatePaymentRange`,
  `calculateMonthlyPayment`);
* `src/lib/calculations/pitch.ts` — `calculatePitchMultiplier`,
  `getPitchTier`, `calculateSlopedArea`;
* `src/lib/measurement/measurement-service.ts` — `MeasurementService`
  (`getRoofMeasurements`).

Modelling conventions:

* JavaScript numbers are modelled as exact rationals (`ℚ`); the one
  irrational operation (`Math.sqrt` in the pitch geometry) is modelled
  over `ℝ` with `Real.sqrt`.
* The Prisma database is modelled as an explicit list of rows passed as an
  argument; `findFirst` becomes `List.find?`.
* Code that can `throw` is modelled with `Except`; an error value names the
  thrown error.
* Display-only strings built by template interpolation (breakdown line
  descriptions) are modelled as structured tags (`LineTag`): the numeric
  payload of every line is kept exactly.
* JavaScript truthiness tests on optional numeric configuration fields
  (`multipliers.story`, `multipliers.pitch?.[tier]`, …) are modelled on
  `Option ℚ`: `none` (absent) and `some 0` (zero) are falsy.
-/

/-! ## Enumerated types (prisma schema / validation.ts) -/

/-- System types, from the prisma `SystemType` enum and `validation.ts`. -/
inductive SystemType where
  | SHINGLE
  | METAL
  | FLAT_TPO
  | FLAT_MODBIT
  | FLAT_BUR
deriving DecidableEq

/-- Pitch tiers, from the prisma `PitchTier` enum and `pitch.ts`. -/
inductive PitchTier where
  | LOW
  | MEDIUM
  | STEEP
deriving DecidableEq, Fintype

/-- The flat system family. `calculateQuotePrice` (pricing.ts line 149)
labels `SHINGLE` and `METAL` as sloped sections and the rest as flat, and
the seed (`prisma/seed.ts` line 124) classifies by the `FLAT_` name
prefix in the same way. -/
def SystemType.isFlatFamily : SystemType → Bool
  | .SHINGLE => false
  | .METAL => false
  | .FLAT_TPO => true
  | .FLAT_MODBIT => true
  | .FLAT_BUR => true

/-! ## Pricing (src/lib/calculations/pricing.ts) -/

/-- The multiplier bundle stored in a `PricingMatrix` row's `multipliers`
JSON column (shape per `prisma/seed.ts` lines 144-153): a pitch-tier
table and three scalar factors. A missing entry is `none`; the pitch
table itself missing is `fun _ => none`. -/
structure Multipliers where
  pitch : PitchTier → Option ℚ
  story : Option ℚ
  tearOff : Option ℚ
  hvhz : Option ℚ

/-- One `PricingMatrix` row. `pricePerSquareCents` is in cents; the
`fixedAdders` JSON column is a keyed list of cent amounts. -/
structure PricingMatrixRow where
  county : String
  systemType : SystemType
  pitchTier : Option PitchTier
  storyTier : ℕ
  tearOffLayers : ℕ
  hvhz : Bool
  pricePerSquareCents : ℚ
  multipliers : Multipliers
  fixedAdders : List (String × ℚ)

/-- Embedding of `PricingInput` (pricing.ts lines 3-11). -/
structure PricingInput where
  systemType : SystemType
  county : String
  finalSquares : ℚ
  pitchTier : Option PitchTier
  storyCount : ℕ
  tearOffLayers : ℕ
  isHVHZ : Bool

/-- Tags standing for the display-only `description` strings of
`PriceBreakdown` lines (pricing.ts builds them by string interpolation;
only the shape matters to the claims, the numbers are kept exactly). -/
inductive LineTag where
  | baseRate
  | pitchAdj
  | storyAdj
  | tearOffAdj
  | hvhzAdj
  | fixedAdder (key : String)
deriving DecidableEq

/-- Embedding of `PriceBreakdown` (pricing.ts lines 23-27). -/
structure PriceBreakdown where
  description : LineTag
  amount : ℚ
  isMultiplier : Bool
deriving DecidableEq

/-- Embedding of `PricingResult` (pricing.ts lines 13-21). The `multipliers` echo field
is kept as the stored bundle (the source's `convertMultipliersToNumbers`
copies the numeric values unchanged); `fixedAdders` is echoed divided by
100 as in `convertAddersToNumbers`. -/
structure PricingResult where
  basePrice : ℚ
  pricePerSquare : ℚ
  totalSquarePrice : ℚ
  multipliers : Multipliers
  fixedAdders : List (String × ℚ)
  totalPrice : ℚ
  breakdown : List PriceBreakdown

/-- The error thrown by `calculateSectionPrice` when no pricing-matrix row
resolves: `throw new Error('No pricing found for ... in ...')`
(pricing.ts line 41). -/
inductive PricingError where
  | noPricing (systemType : SystemType) (county : String)
deriving DecidableEq

/-- The `where` clause of the two `findFirst` calls in `getPricingMatrix`
(pricing.ts lines 169-192): all key fields but the county come from the
input, the story tier is capped at 3 (`Math.min(input.storyCount, 3)`). -/
def matrixKeyMatches (input : PricingInput) (county : String)
    (row : PricingMatrixRow) : Bool :=
  row.county == county &&
  row.systemType == input.systemType &&
  row.pitchTier == input.pitchTier &&
  row.storyTier == min input.storyCount 3 &&
  row.tearOffLayers == input.tearOffLayers &&
  row.hvhz == input.isHVHZ

/-- Embedding of `getPricingMatrix` (pricing.ts lines 167-195): exact county first,
then the `DEFAULT` county with all other key fields unchanged. -/
def getPricingMatrix (db : List PricingMatrixRow) (input : PricingInput) :
    Option PricingMatrixRow :=
  match db.find? (matrixKeyMatches input input.county) with
  | some matrix => some matrix
  | none => db.find? (matrixKeyMatches input "DEFAULT")

/-- The pitch-multiplier step (pricing.ts lines 61-70): applied only when
the input carries a pitch tier and `multipliers.pitch?.[tier]` is truthy
(present and nonzero). Returns the factor contributed to
`finalMultiplier` and the breakdown lines pushed. The `base` argument is
the unadjusted `totalSquarePrice`, which the source uses for every
step's delta. -/
def pitchStep (pitchTable : PitchTier → Option ℚ) (pt : Option PitchTier)
    (base : ℚ) : ℚ × List PriceBreakdown :=
  match pt with
  | some tier =>
    match pitchTable tier with
    | some p =>
      if p = 0 then (1, [])
      else (p, [⟨.pitchAdj, base * (p - 1), true⟩])
    | none => (1, [])
  | none => (1, [])

/-- The story-multiplier step (pricing.ts lines 72-81): applied when
`storyCount > 1` and `multipliers.story` is truthy; the factor is
`story ^ (storyCount - 1)`. -/
def storyStep (story : Option ℚ) (storyCount : ℕ) (base : ℚ) :
    ℚ × List PriceBreakdown :=
  if storyCount > 1 then
    match story with
    | some s =>
      if s = 0 then (1, [])
      else (s ^ (storyCount - 1),
        [⟨.storyAdj, base * (s ^ (storyCount - 1) - 1), true⟩])
    | none => (1, [])
  else (1, [])

/-- The tear-off step (pricing.ts lines 83-92): applied when
`tearOffLayers > 0` and `multipliers.tearOff` is truthy; the factor is
`1 + tearOff * layers`. -/
def tearOffStep (tearOff : Option ℚ) (layers : ℕ) (base : ℚ) :
    ℚ × List PriceBreakdown :=
  if layers > 0 then
    match tearOff with
    | some t =>
      if t = 0 then (1, [])
      else (1 + t * layers, [⟨.tearOffAdj, base * (1 + t * layers - 1), true⟩])
    | none => (1, [])
  else (1, [])

/-- The HVHZ step (pricing.ts lines 94-102): applied when the flag is set
and `multipliers.hvhz` is truthy. -/
def hvhzStep (hvhz : Option ℚ) (isHVHZ : Bool) (base : ℚ) :
    ℚ × List PriceBreakdown :=
  if isHVHZ then
    match hvhz with
    | some h =>
      if h = 0 then (1, [])
      else (h, [⟨.hvhzAdj, base * (h - 1), true⟩])
    | none => (1, [])
  else (1, [])

/-- The straight-line body of `calculateSectionPrice` after the matrix row
has resolved (pricing.ts lines 44-129): base square price, the four
guarded multiplier steps (each delta computed against the unadjusted
base `totalSquarePrice`), `totalSquarePrice *= finalMultiplier`, then
the fixed adders summed additively, each with its own line. -/
def priceWithMatrix (pm : PricingMatrixRow) (input : PricingInput) :
    PricingResult :=
  let basePrice := pm.pricePerSquareCents / 100
  let totalSquarePrice := basePrice * input.finalSquares
  let ps := pitchStep pm.multipliers.pitch input.pitchTier totalSquarePrice
  let ss := storyStep pm.multipliers.story input.storyCount totalSquarePrice
  let ts := tearOffStep pm.multipliers.tearOff input.tearOffLayers totalSquarePrice
  let hs := hvhzStep pm.multipliers.hvhz input.isHVHZ totalSquarePrice
  let finalMultiplier := ps.1 * ss.1 * ts.1 * hs.1
  let adjusted := totalSquarePrice * finalMultiplier
  let fixedCosts := (pm.fixedAdders.map (fun kv => kv.2 / 100)).sum
  { basePrice := basePrice
    pricePerSquare := basePrice
    totalSquarePrice := adjusted
    multipliers := pm.multipliers
    fixedAdders := pm.fixedAdders.map (fun kv => (kv.1, kv.2 / 100))
    totalPrice := adjusted + fixedCosts
    breakdown := ⟨.baseRate, totalSquarePrice, false⟩ ::
      (ps.2 ++ ss.2 ++ ts.2 ++ hs.2 ++
        pm.fixedAdders.map (fun kv => ⟨.fixedAdder kv.1, kv.2 / 100, false⟩)) }

/-- Embedding of `calculateSectionPrice` (pricing.ts lines 36-130): resolve the matrix
row, throw `noPricing` when both lookups miss, otherwise price. There is
no other guard: the function performs no validation of the requested
system type against the section kind. -/
def calculateSectionPrice (db : List PricingMatrixRow) (input : PricingInput) :
    Except PricingError PricingResult :=
  match getPricingMatrix db input with
  | none => .error (.noPricing input.systemType input.county)
  | some pm => .ok (priceWithMatrix pm input)

/-! ### Claim C1: family-mismatch guard in section pricing -/

/-- A `DEFAULT`-county `METAL` rate-card row with a null pitch tier, as an
administrator can configure (`PricingMatrix` rows are admin-owned data;
the key shape is unrestricted). -/
def metalDefaultRow : PricingMatrixRow :=
  { county := "DEFAULT"
    systemType := .METAL
    pitchTier := none
    storyTier := 1
    tearOffLayers := 0
    hvhz := false
    pricePerSquareCents := 85000
    multipliers := ⟨fun _ => none, some (27/25), some (3/25), some 1⟩
    fixedAdders := [] }

/-- The pricing request a FLAT section produces when submitted with
`systemType = METAL`: flat sections carry no pitch rise, so
`update-selections/route.ts` line 84 sends `pitchTier = undefined`. -/
def flatMetalInput : PricingInput :=
  { systemType := .METAL
    county := "DEFAULT"
    finalSquares := 10
    pitchTier := none
    storyCount := 1
    tearOffLayers := 0
    isHVHZ := false }

/-- Claim C1 (code_bug evaluation): a FLAT section submitted with
`systemType = METAL` — a sloped-family system — is NOT rejected by
`calculateSectionPrice`: with a matching `METAL` rate-card row present
the call returns a normal pricing result of 8500 dollars. No
`ValidationError` exists anywhere on this code path (the only error the
function can throw is the pricing-matrix miss), so the spec's
business-rule guard is absent from the pricing operation. -/
theorem flat_metal_section_is_priced_not_rejected :
    calculateSectionPrice [metalDefaultRow] flatMetalInput =
      .ok (priceWithMatrix metalDefaultRow flatMetalInput) ∧
    (priceWithMatrix metalDefaultRow flatMetalInput).totalPrice = 8500 ∧
    SystemType.isFlatFamily flatMetalInput.systemType = false ∧
    flatMetalInput.pitchTier = none := by
  refine ⟨rfl, ?_, rfl, rfl⟩
  norm_num [priceWithMatrix, pitchStep, storyStep, tearOffStep, hvhzStep,
    metalDefaultRow, flatMetalInput]

/-! ## Waste (src/lib/calculations/waste.ts) -/

/-- Embedding of `WasteRule` (waste.ts lines 21-25): one inclusive range with an
additive percentage. -/
structure WasteRule where
  min : ℚ
  max : ℚ
  add : ℚ
deriving DecidableEq

/-- Embedding of `WasteRulesConfig` (waste.ts lines 27-33). -/
structure WasteRulesConfig where
  basePercent : ℚ
  maxPercent : ℚ
  facets : List WasteRule
  hipsValleys : List WasteRule
  penetrations : List WasteRule
deriving DecidableEq

/-- The complexity part of `WasteCalculationInput` (waste.ts lines 3-9). -/
structure WasteCalculationInput where
  facets : ℚ
  hipsValleys : ℚ
  penetrations : ℚ
deriving DecidableEq

/-- Embedding of `WasteCalculationResult` (waste.ts lines 11-19). -/
structure WasteCalculationResult where
  baseWaste : ℚ
  facetsAdder : ℚ
  hipsValleysAdder : ℚ
  penetrationsAdder : ℚ
  totalWastePercent : ℚ
  finalAreaSqFt : ℚ
  finalSquares : ℚ
deriving DecidableEq

/-- Embedding of `DEFAULT_WASTE_RULES` (waste.ts lines 35-56). -/
def DEFAULT_WASTE_RULES : WasteRulesConfig :=
  { basePercent := 12
    maxPercent := 22
    facets := [⟨0, 6, 0⟩, ⟨7, 12, 2⟩, ⟨13, 20, 4⟩, ⟨21, 999, 6⟩]
    hipsValleys := [⟨0, 2, 0⟩, ⟨3, 5, 1⟩, ⟨6, 10, 3⟩, ⟨11, 999, 5⟩]
    penetrations := [⟨0, 3, 0⟩, ⟨4, 8, 1⟩, ⟨9, 15, 2⟩, ⟨16, 999, 4⟩] }

/-- Embedding of `getAdderForValue` (waste.ts lines 97-100):
`rules.find(r => value >= r.min && value <= r.max)` then `rule?.add || 0`.
On numbers `x || 0` is the identity (`0 || 0` evaluates to `0`), so the
matched rule's `add` is returned as-is and a miss contributes 0. -/
def getAdderForValue (value : ℚ) (rules : List WasteRule) : ℚ :=
  match rules.find? (fun r => decide (r.min ≤ value) && decide (value ≤ r.max)) with
  | some r => r.add
  | none => 0

/-- Embedding of `calculateWaste` (waste.ts lines 102-132), with the rules configuration
(the result of `getWasteRules`) passed explicitly: sum the base percent
and the three adders, cap at `maxPercent`, then derive the final area
and squares. -/
def calculateWaste (rules : WasteRulesConfig) (areaSqFt : ℚ)
    (complexity : WasteCalculationInput) : WasteCalculationResult :=
  let baseWaste := rules.basePercent
  let facetsAdder := getAdderForValue complexity.facets rules.facets
  let hipsValleysAdder := getAdderForValue complexity.hipsValleys rules.hipsValleys
  let penetrationsAdder := getAdderForValue complexity.penetrations rules.penetrations
  let totalWastePercent :=
    min (baseWaste + facetsAdder + hipsValleysAdder + penetrationsAdder)
      rules.maxPercent
  let finalAreaSqFt := areaSqFt * (1 + totalWastePercent / 100)
  let finalSquares := finalAreaSqFt / 100
  { baseWaste := baseWaste
    facetsAdder := facetsAdder
    hipsValleysAdder := hipsValleysAdder
    penetrationsAdder := penetrationsAdder
    totalWastePercent := totalWastePercent
    finalAreaSqFt := finalAreaSqFt
    finalSquares := finalSquares }

/-- Helper: `getAdderForValue` returns 0 when no rule's inclusive range
contains the value. -/
lemma getAdderForValue_eq_zero_of_no_match (v : ℚ) (rl : List WasteRule)
    (h : ∀ ru ∈ rl, ¬(ru.min ≤ v ∧ v ≤ ru.max)) :
    getAdderForValue v rl = 0 := by
  unfold getAdderForValue
  rw [List.find?_eq_none.mpr]
  intro ru hru
  have := h ru hru
  simp only [Bool.and_eq_true, decide_eq_true_eq]
  tauto

/-- Helper: `getAdderForValue` returns the `add` of the first rule whose
inclusive range contains the value. -/
lemma getAdderForValue_eq_first_match (v : ℚ) (l₁ l₂ : List WasteRule)
    (ru : WasteRule) (h₁ : ∀ ru' ∈ l₁, ¬(ru'.min ≤ v ∧ v ≤ ru'.max))
    (h₂ : ru.min ≤ v) (h₃ : v ≤ ru.max) :
    getAdderForValue v (l₁ ++ ru :: l₂) = ru.add := by
  induction l₁ with
  | nil =>
    unfold getAdderForValue
    simp [List.find?_cons, h₂, h₃]
  | cons head tail ih =>
    have hhead := h₁ head (by simp)
    have htail : ∀ ru' ∈ tail, ¬(ru'.min ≤ v ∧ v ≤ ru'.max) := by
      intro ru' hru'
      exact h₁ ru' (by simp [hru'])
    have hfalse : (decide (head.min ≤ v) && decide (v ≤ head.max)) = false := by
      simp only [Bool.and_eq_false_iff, decide_eq_false_iff_not]
      tauto
    unfold getAdderForValue at ih ⊢
    rw [List.cons_append, List.find?_cons, hfalse]
    exact ih htail

/-- Claim C5: for every waste evaluation input and every configuration,
each complexity adder is the `add` of the first inclusive range
containing the value (0 when no range matches), the total waste percent
is the capped sum `min (base + three adders) maxPercent` — hence never
exceeds `maxPercent` — and the final area and squares follow as
`areaSqFt * (1 + totalWastePercent/100)` and `finalAreaSqFt / 100`. -/
theorem waste_percent_capped_and_composed (rules : WasteRulesConfig)
    (areaSqFt : ℚ) (cx : WasteCalculationInput) :
    (calculateWaste rules areaSqFt cx).totalWastePercent ≤ rules.maxPercent ∧
    (calculateWaste rules areaSqFt cx).totalWastePercent =
      min (rules.basePercent + getAdderForValue cx.facets rules.facets +
        getAdderForValue cx.hipsValleys rules.hipsValleys +
        getAdderForValue cx.penetrations rules.penetrations)
        rules.maxPercent ∧
    (calculateWaste rules areaSqFt cx).facetsAdder =
      getAdderForValue cx.facets rules.facets ∧
    (calculateWaste rules areaSqFt cx).finalAreaSqFt =
      areaSqFt * (1 + (calculateWaste rules areaSqFt cx).totalWastePercent / 100) ∧
    (calculateWaste rules areaSqFt cx).finalSquares =
      (calculateWaste rules areaSqFt cx).finalAreaSqFt / 100 ∧
    (∀ (v : ℚ) (l₁ l₂ : List WasteRule) (ru : WasteRule),
      (∀ ru' ∈ l₁, ¬(ru'.min ≤ v ∧ v ≤ ru'.max)) → ru.min ≤ v → v ≤ ru.max →
      getAdderForValue v (l₁ ++ ru :: l₂) = ru.add) ∧
    (∀ (v : ℚ) (rl : List WasteRule),
      (∀ ru ∈ rl, ¬(ru.min ≤ v ∧ v ≤ ru.max)) → getAdderForValue v rl = 0) := by
  refine ⟨?_, rfl, rfl, rfl, rfl, ?_, ?_⟩
  · exact min_le_right _ _
  · intro v l₁ l₂ ru h₁ h₂ h₃
    exact getAdderForValue_eq_first_match v l₁ l₂ ru h₁ h₂ h₃
  · intro v rl h
    exact getAdderForValue_eq_zero_of_no_match v rl h

/-- Witness for claim C5 at the default waste rules and the complexity
triple (facets 9, hips/valleys 4, penetrations 6): the cap holds and the
first-match / no-match behaviour is exercised on concrete range lists. -/
theorem waste_percent_capped_and_composed_witness :
    (calculateWaste DEFAULT_WASTE_RULES 1000 ⟨9, 4, 6⟩).totalWastePercent ≤ 22 ∧
    getAdderForValue 9 ([⟨0, 6, 0⟩] ++ ⟨7, 12, 2⟩ :: [⟨13, 20, 4⟩, ⟨21, 999, 6⟩]) = 2 ∧
    getAdderForValue 25 [⟨0, 6, 0⟩, ⟨7, 12, 2⟩] = 0 := by
  obtain ⟨h₁, -, -, -, -, h₆, h₇⟩ :=
    waste_percent_capped_and_composed DEFAULT_WASTE_RULES 1000 ⟨9, 4, 6⟩
  refine ⟨h₁, ?_, ?_⟩
  · refine h₆ 9 [⟨0, 6, 0⟩] [⟨13, 20, 4⟩, ⟨21, 999, 6⟩] ⟨7, 12, 2⟩ ?_ (by norm_num) (by norm_num)
    intro ru' hru'
    simp only [List.mem_singleton] at hru'
    subst hru'
    norm_num
  · refine h₇ 25 [⟨0, 6, 0⟩, ⟨7, 12, 2⟩] ?_
    intro ru hru
    simp only [List.mem_cons, List.mem_singleton, List.not_mem_nil, or_false] at hru
    rcases hru with h | h <;> subst h <;> norm_num

/-- Claim C4: rate-card resolution tries the exact composite key first,
retries with county `DEFAULT` holding the other key fields constant, and
when both lookups miss `calculateSectionPrice` fails with the not-found
error; any resolved row agrees with the request on every key field, and
a resolved row is the one actually priced (no zero or substituted
price). -/
theorem rate_card_resolution (db : List PricingMatrixRow) (input : PricingInput) :
    (∀ m, db.find? (matrixKeyMatches input input.county) = some m →
      getPricingMatrix db input = some m) ∧
    (db.find? (matrixKeyMatches input input.county) = none →
      getPricingMatrix db input = db.find? (matrixKeyMatches input "DEFAULT")) ∧
    (db.find? (matrixKeyMatches input input.county) = none →
      db.find? (matrixKeyMatches input "DEFAULT") = none →
      calculateSectionPrice db input =
        .error (.noPricing input.systemType input.county)) ∧
    (∀ m, getPricingMatrix db input = some m →
      (m.county = input.county ∨ m.county = "DEFAULT") ∧
      m.systemType = input.systemType ∧
      m.pitchTier = input.pitchTier ∧
      m.storyTier = min input.storyCount 3 ∧
      m.tearOffLayers = input.tearOffLayers ∧
      m.hvhz = input.isHVHZ) ∧
    (∀ m, getPricingMatrix db input = some m →
      calculateSectionPrice db input = .ok (priceWithMatrix m input)) := by
  refine ⟨?_, ?_, ?_, ?_, ?_⟩
  · intro m hm
    unfold getPricingMatrix
    rw [hm]
  · intro hm
    unfold getPricingMatrix
    rw [hm]
  · intro h₁ h₂
    unfold calculateSectionPrice getPricingMatrix
    rw [h₁, h₂]
  · intro m hm
    unfold getPricingMatrix at hm
    have hkey : ∃ c, (c = input.county ∨ c = "DEFAULT") ∧
        matrixKeyMatches input c m = true := by
      rcases hfind : db.find? (matrixKeyMatches input input.county) with - | m'
      · rw [hfind] at hm
        exact ⟨"DEFAULT", Or.inr rfl, List.find?_some hm⟩
      · rw [hfind] at hm
        cases hm
        exact ⟨input.county, Or.inl rfl, List.find?_some hfind⟩
    obtain ⟨c, hc, hmatch⟩ := hkey
    simp only [matrixKeyMatches, Bool.and_eq_true, beq_iff_eq] at hmatch
    obtain ⟨⟨⟨⟨⟨hcounty, hsys⟩, hpitch⟩, hstory⟩, htear⟩, hhvhz⟩ := hmatch
    refine ⟨?_, hsys, hpitch, hstory, htear, hhvhz⟩
    rcases hc with hc | hc <;> rw [← hc] <;> [exact Or.inl hcounty; exact Or.inr hcounty]
  · intro m hm
    unfold calculateSectionPrice
    rw [hm]

/-- Witness for claim C4: with an empty rate card every lookup misses and
section pricing fails with the not-found error; with only a `DEFAULT`
row present, that row resolves and is the row priced. -/
theorem rate_card_resolution_witness :
    calculateSectionPrice [] ⟨.SHINGLE, "Palm Beach", 12, some .LOW, 1, 0, false⟩ =
      .error (.noPricing .SHINGLE "Palm Beach") ∧
    getPricingMatrix [metalDefaultRow] flatMetalInput = some metalDefaultRow ∧
    calculateSectionPrice [metalDefaultRow] flatMetalInput =
      .ok (priceWithMatrix metalDefaultRow flatMetalInput) := by
  obtain ⟨-, -, h₃, -, -⟩ :=
    rate_card_resolution [] ⟨.SHINGLE, "Palm Beach", 12, some .LOW, 1, 0, false⟩
  obtain ⟨h₁', -, -, -, h₅'⟩ := rate_card_resolution [metalDefaultRow] flatMetalInput
  exact ⟨h₃ rfl rfl, h₁' metalDefaultRow rfl, h₅' metalDefaultRow (h₁' metalDefaultRow rfl)⟩

/-- Helper: the factor contributed by the pitch step, in terms of a value
`p` that is the configured tier multiplier on sloped inputs and 1 on
flat inputs. -/
lemma pitchStep_fst (table : PitchTier → Option ℚ) (pt : Option PitchTier)
    (base p : ℚ)
    (hp : match pt with
      | some tier => table tier = some p ∧ p ≠ 0
      | none => p = 1) :
    (pitchStep table pt base).1 = p := by
  cases pt with
  | none => simpa [pitchStep] using hp.symm
  | some tier =>
    obtain ⟨h1, h2⟩ := hp
    simp [pitchStep, h1, h2]

/-- Helper: the factor contributed by the story step is
`story ^ (storyCount - 1)` whenever a nonzero story multiplier is
configured (for one story both sides are 1). -/
lemma storyStep_fst (story : Option ℚ) (n : ℕ) (base s : ℚ)
    (hs : story = some s) (h0 : s ≠ 0) :
    (storyStep story n base).1 = s ^ (n - 1) := by
  subst hs
  by_cases hn : n > 1
  · simp [storyStep, hn, h0]
  · have hz : n - 1 = 0 := Nat.sub_eq_zero_of_le (Nat.le_of_not_lt hn)
    simp [storyStep, hn, hz]

/-- Helper: the factor contributed by the tear-off step is
`1 + tearOff * layers`, linear in the layer count (for zero layers or a
zero rate both sides are 1). -/
lemma tearOffStep_fst (tearOff : Option ℚ) (layers : ℕ) (base t : ℚ)
    (ht : tearOff = some t) :
    (tearOffStep tearOff layers base).1 = 1 + t * layers := by
  subst ht
  by_cases hl : layers > 0
  · by_cases h0 : t = 0
    · subst h0
      simp [tearOffStep, hl]
    · simp [tearOffStep, hl, h0]
  · have hz : layers = 0 := Nat.eq_zero_of_not_pos hl
    subst hz
    simp [tearOffStep]

/-- Helper: the factor contributed by the HVHZ step, in terms of a value
`h` that is the configured factor when the flag is set and 1 when it is
not. -/
lemma hvhzStep_fst (hvhz : Option ℚ) (flag : Bool) (base h : ℚ)
    (hh : if flag then hvhz = some h ∧ h ≠ 0 else h = 1) :
    (hvhzStep hvhz flag base).1 = h := by
  cases flag with
  | false =>
    simp only [if_neg Bool.false_ne_true] at hh
    simp [hvhzStep, hh]
  | true =>
    simp only [if_pos rfl] at hh
    simp [hvhzStep, hh.1, hh.2]

/-- Claim C6: for a resolved rate-card entry with a nonzero configured
pitch multiplier `p` on sloped inputs (`p = 1` on flat ones), a nonzero
story factor `s`, a tear-off per-layer rate `t`, and an HVHZ factor `h`
when the flag is set (`h = 1` otherwise), the section total is
`pricePerSquare * finalSquares * p * s^(storyCount-1) * (1 + t*layers) * h`
plus the sum of the fixed adders. -/
theorem section_price_composition
    (db : List PricingMatrixRow) (input : PricingInput) (pm : PricingMatrixRow)
    (p s t h : ℚ)
    (hm : getPricingMatrix db input = some pm)
    (hp : match input.pitchTier with
      | some tier => pm.multipliers.pitch tier = some p ∧ p ≠ 0
      | none => p = 1)
    (hs : pm.multipliers.story = some s ∧ s ≠ 0)
    (ht : pm.multipliers.tearOff = some t)
    (hh : if input.isHVHZ then pm.multipliers.hvhz = some h ∧ h ≠ 0 else h = 1) :
    calculateSectionPrice db input = .ok (priceWithMatrix pm input) ∧
    (priceWithMatrix pm input).totalPrice =
      pm.pricePerSquareCents / 100 * input.finalSquares *
        p * s ^ (input.storyCount - 1) * (1 + t * input.tearOffLayers) * h +
      (pm.fixedAdders.map (fun kv => kv.2 / 100)).sum := by
  constructor
  · unfold calculateSectionPrice
    rw [hm]
  · simp only [priceWithMatrix]
    rw [pitchStep_fst _ _ _ p hp, storyStep_fst _ _ _ s hs.1 hs.2,
      tearOffStep_fst _ _ _ t ht, hvhzStep_fst _ _ _ h hh]
    ring

/-- A `DEFAULT`-county SHINGLE rate-card row with the seed's multiplier
shape and two fixed adders. -/
def shingleDefaultRow : PricingMatrixRow :=
  { county := "DEFAULT"
    systemType := .SHINGLE
    pitchTier := some .MEDIUM
    storyTier := 2
    tearOffLayers := 1
    hvhz := true
    pricePerSquareCents := 45000
    multipliers :=
      ⟨fun tier => match tier with
        | .LOW => some 1
        | .MEDIUM => some (21/20)
        | .STEEP => some (23/20),
       some (27/25), some (3/25), some 1⟩
    fixedAdders := [("permit", 9000), ("cleanup", 15000)] }

/-- A two-story, one-tear-off-layer, HVHZ SHINGLE pricing request at a
MEDIUM pitch tier. -/
def shingleInput : PricingInput :=
  { systemType := .SHINGLE
    county := "DEFAULT"
    finalSquares := 10
    pitchTier := some .MEDIUM
    storyCount := 2
    tearOffLayers := 1
    isHVHZ := true }

/-- Witness for claim C6: on the concrete SHINGLE request all four
multiplier kinds engage and the total evaluates to the composed
closed form. -/
theorem section_price_composition_witness :
    calculateSectionPrice [shingleDefaultRow] shingleInput =
      .ok (priceWithMatrix shingleDefaultRow shingleInput) ∧
    (priceWithMatrix shingleDefaultRow shingleInput).totalPrice = 148884/25 := by
  obtain ⟨h₁, h₂⟩ :=
    section_price_composition [shingleDefaultRow] shingleInput shingleDefaultRow
      (21/20) (27/25) (3/25) 1 rfl ⟨rfl, by norm_num⟩ ⟨rfl, by norm_num⟩ rfl
      (by simp only [shingleInput, if_pos]; exact ⟨rfl, one_ne_zero⟩)
  refine ⟨h₁, ?_⟩
  rw [h₂]
  norm_num [shingleDefaultRow, shingleInput]

/-- A rate-card row configured with a story factor of 2 and a tear-off
per-layer rate of 1/2, used to exercise two multipliers at once. -/
def twoMultiplierRow : PricingMatrixRow :=
  { county := "DEFAULT"
    systemType := .SHINGLE
    pitchTier := none
    storyTier := 2
    tearOffLayers := 1
    hvhz := false
    pricePerSquareCents := 10000
    multipliers := ⟨fun _ => none, some 2, some (1/2), none⟩
    fixedAdders := [] }

/-- A two-story, one-layer request matching `twoMultiplierRow`. -/
def twoMultiplierInput : PricingInput :=
  { systemType := .SHINGLE
    county := "DEFAULT"
    finalSquares := 1
    pitchTier := none
    storyCount := 2
    tearOffLayers := 1
    isHVHZ := false }

/-- Counterexample to claim C3 as stated: with a base square price of 100,
a story factor of 2 and a tear-off factor of 3/2, the code records the
tear-off line as 100 * (3/2 - 1) = 50 dollars, but the running adjusted
price at that step is 100 * 2 = 200, so the delta that step actually
introduced is 200 * (3/2 - 1) = 100 ≠ 50: the recorded delta does not
account for the story multiplier applied before it. -/
theorem multiplier_breakdown_not_running_delta :
    calculateSectionPrice [twoMultiplierRow] twoMultiplierInput =
      .ok (priceWithMatrix twoMultiplierRow twoMultiplierInput) ∧
    (priceWithMatrix twoMultiplierRow twoMultiplierInput).breakdown =
      [⟨.baseRate, 100, false⟩, ⟨.storyAdj, 100, true⟩, ⟨.tearOffAdj, 50, true⟩] ∧
    (priceWithMatrix twoMultiplierRow twoMultiplierInput).totalPrice = 300 ∧
    (100 * 2 : ℚ) * (3/2 - 1) = 100 ∧
    (50 : ℚ) ≠ 100 := by
  refine ⟨rfl, ?_, ?_, by norm_num, by norm_num⟩
  · norm_num [priceWithMatrix, pitchStep, storyStep, tearOffStep, hvhzStep,
      twoMultiplierRow, twoMultiplierInput]
  · norm_num [priceWithMatrix, pitchStep, storyStep, tearOffStep, hvhzStep,
      twoMultiplierRow, twoMultiplierInput]

/-- Claim C3 amended: every applied multiplier is recorded as a breakdown
line, but its amount is `base * (factor - 1)` where `base` is the
unadjusted base square price `pricePerSquare * finalSquares` — the same
base for every step — not the running adjusted price; deltas of later
steps therefore do not account for multipliers applied before them. -/
theorem multiplier_breakdown_base_relative
    (db : List PricingMatrixRow) (input : PricingInput) (pm : PricingMatrixRow)
    (tier : PitchTier) (p s t h : ℚ)
    (hm : getPricingMatrix db input = some pm)
    (hpt : input.pitchTier = some tier)
    (hp : pm.multipliers.pitch tier = some p) (hp0 : p ≠ 0)
    (hs : pm.multipliers.story = some s) (hs0 : s ≠ 0)
    (hn : 1 < input.storyCount)
    (ht : pm.multipliers.tearOff = some t) (ht0 : t ≠ 0)
    (hl : 0 < input.tearOffLayers)
    (hh : pm.multipliers.hvhz = some h) (hh0 : h ≠ 0)
    (hz : input.isHVHZ = true) :
    calculateSectionPrice db input = .ok (priceWithMatrix pm input) ∧
    (priceWithMatrix pm input).breakdown =
      ⟨.baseRate, pm.pricePerSquareCents / 100 * input.finalSquares, false⟩ ::
      ([⟨.pitchAdj,
          pm.pricePerSquareCents / 100 * input.finalSquares * (p - 1), true⟩,
        ⟨.storyAdj,
          pm.pricePerSquareCents / 100 * input.finalSquares *
            (s ^ (input.storyCount - 1) - 1), true⟩,
        ⟨.tearOffAdj,
          pm.pricePerSquareCents / 100 * input.finalSquares *
            (1 + t * input.tearOffLayers - 1), true⟩,
        ⟨.hvhzAdj,
          pm.pricePerSquareCents / 100 * input.finalSquares * (h - 1), true⟩] ++
       pm.fixedAdders.map (fun kv => ⟨.fixedAdder kv.1, kv.2 / 100, false⟩)) := by
  constructor
  · unfold calculateSectionPrice
    rw [hm]
  · simp [priceWithMatrix, pitchStep, storyStep, tearOffStep, hvhzStep,
      hpt, hp, hp0, hs, hs0, hn, ht, ht0, hl, hh, hh0, hz]

/-- Witness for the amended claim C3: on the concrete SHINGLE request all
four multiplier lines carry `base * (factor - 1)` with base 4500. -/
theorem multiplier_breakdown_base_relative_witness :
    (priceWithMatrix shingleDefaultRow shingleInput).breakdown =
      [⟨.baseRate, 4500, false⟩, ⟨.pitchAdj, 225, true⟩, ⟨.storyAdj, 360, true⟩,
       ⟨.tearOffAdj, 540, true⟩, ⟨.hvhzAdj, 0, true⟩,
       ⟨.fixedAdder "permit", 90, false⟩, ⟨.fixedAdder "cleanup", 150, false⟩] := by
  obtain ⟨-, h₂⟩ :=
    multiplier_breakdown_base_relative [shingleDefaultRow] shingleInput
      shingleDefaultRow .MEDIUM (21/20) (27/25) (3/25) 1 rfl rfl rfl
      (by norm_num) rfl (by norm_num) (by norm_num [shingleInput]) rfl
      (by norm_num) (by norm_num [shingleInput]) rfl (by norm_num) rfl
  rw [h₂]
  norm_num [shingleDefaultRow, shingleInput]

/-- Helper: a configured story factor of 0 is falsy to the guard, so the
story step is skipped exactly as when no factor is configured. -/
lemma storyStep_zero (n : ℕ) (base : ℚ) :
    storyStep (some 0) n base = (1, []) ∧
    storyStep (none : Option ℚ) n base = (1, []) := by
  by_cases hn : n > 1 <;> simp [storyStep, hn]

/-- Helper: a configured tear-off rate of 0 is falsy to the guard. -/
lemma tearOffStep_zero (l : ℕ) (base : ℚ) :
    tearOffStep (some 0) l base = (1, []) ∧
    tearOffStep (none : Option ℚ) l base = (1, []) := by
  by_cases hl : l > 0 <;> simp [tearOffStep, hl]

/-- Helper: a configured HVHZ factor of 0 is falsy to the guard. -/
lemma hvhzStep_zero (f : Bool) (base : ℚ) :
    hvhzStep (some 0) f base = (1, []) ∧
    hvhzStep (none : Option ℚ) f base = (1, []) := by
  cases f <;> simp [hvhzStep]

/-- Helper: a pitch-tier table entry of 0 is falsy to the guard, so the
pitch step behaves as with the entry absent. -/
lemma pitchStep_zero_entry (table : PitchTier → Option ℚ) (tier : PitchTier)
    (pt : Option PitchTier) (base : ℚ) :
    pitchStep (fun t' => if t' = tier then some 0 else table t') pt base =
      pitchStep (fun t' => if t' = tier then none else table t') pt base := by
  cases pt with
  | none => rfl
  | some tier' =>
    by_cases h : tier' = tier
    · subst h
      simp [pitchStep]
    · simp [pitchStep, h]

/-- The price-relevant part of a pricing result: everything except the
raw echo of the stored configuration (`multipliers`, `fixedAdders`). -/
def PricingResult.priced (r : PricingResult) :
    ℚ × ℚ × ℚ × ℚ × List PriceBreakdown :=
  (r.basePrice, r.pricePerSquare, r.totalSquarePrice, r.totalPrice, r.breakdown)

/-- Claim C10: a multiplier configured as 0 is skipped entirely — the
computed prices and the breakdown are the same as with the multiplier
absent (only the verbatim configuration echo differs), the step
contributes a factor of 1 and pushes no breakdown line — and a tiered
waste adder of 0 yields the same contribution, 0, as an unmatched
range. -/
theorem zero_multiplier_skipped (pm : PricingMatrixRow) (input : PricingInput)
    (tier : PitchTier) (n l : ℕ) (f : Bool) (base : ℚ) :
    (priceWithMatrix
        { pm with multipliers := { pm.multipliers with story := some 0 } }
        input).priced =
      (priceWithMatrix
        { pm with multipliers := { pm.multipliers with story := none } }
        input).priced ∧
    (priceWithMatrix
        { pm with multipliers := { pm.multipliers with tearOff := some 0 } }
        input).priced =
      (priceWithMatrix
        { pm with multipliers := { pm.multipliers with tearOff := none } }
        input).priced ∧
    (priceWithMatrix
        { pm with multipliers := { pm.multipliers with hvhz := some 0 } }
        input).priced =
      (priceWithMatrix
        { pm with multipliers := { pm.multipliers with hvhz := none } }
        input).priced ∧
    (priceWithMatrix
        { pm with multipliers :=
          { pm.multipliers with
            pitch := fun t' => if t' = tier then some 0 else pm.multipliers.pitch t' } }
        input).priced =
      (priceWithMatrix
        { pm with multipliers :=
          { pm.multipliers with
            pitch := fun t' => if t' = tier then none else pm.multipliers.pitch t' } }
        input).priced ∧
    storyStep (some 0) n base = (1, []) ∧
    tearOffStep (some 0) l base = (1, []) ∧
    hvhzStep (some 0) f base = (1, []) ∧
    (∀ (v : ℚ) (rl : List WasteRule) (ru : WasteRule),
      rl.find? (fun r => decide (r.min ≤ v) && decide (v ≤ r.max)) = some ru →
      ru.add = 0 → getAdderForValue v rl = 0) := by
  refine ⟨?_, ?_, ?_, ?_, (storyStep_zero n base).1, (tearOffStep_zero l base).1,
    (hvhzStep_zero f base).1, ?_⟩
  · simp [priceWithMatrix, PricingResult.priced,
      (storyStep_zero _ _).1, (storyStep_zero _ _).2]
  · simp [priceWithMatrix, PricingResult.priced,
      (tearOffStep_zero _ _).1, (tearOffStep_zero _ _).2]
  · simp [priceWithMatrix, PricingResult.priced,
      (hvhzStep_zero _ _).1, (hvhzStep_zero _ _).2]
  · simp [priceWithMatrix, PricingResult.priced, pitchStep_zero_entry]
  · intro v rl ru hfind hadd
    unfold getAdderForValue
    rw [hfind]
    simp [hadd]

/-- Witness for claim C10: with the story factor configured as 0, the
computed prices and breakdown are the same as with the factor absent
(not zeroed, not reduced), a zero story factor contributes a factor of
1 and no line, and a waste range matched with `add = 0` contributes
0. -/
theorem zero_multiplier_skipped_witness :
    (priceWithMatrix
        { metalDefaultRow with
          multipliers := { metalDefaultRow.multipliers with story := some 0 } }
        flatMetalInput).priced =
      (priceWithMatrix
        { metalDefaultRow with
          multipliers := { metalDefaultRow.multipliers with story := none } }
        flatMetalInput).priced ∧
    storyStep (some 0) 3 100 = (1, []) ∧
    getAdderForValue 5 [⟨0, 6, 0⟩] = 0 := by
  obtain ⟨h₁, -, -, -, h₅, -, -, h₈⟩ :=
    zero_multiplier_skipped metalDefaultRow flatMetalInput .LOW 3 0 false 100
  exact ⟨h₁, h₅, h₈ 5 [⟨0, 6, 0⟩] ⟨0, 6, 0⟩ (by norm_num [List.find?]) rfl⟩

/-! ## Finance (src/lib/calculations/finance.ts) -/

/-- A `FinancePlan` row (finance.ts lines 3-13 / prisma schema): APR
bounds in percent, term bounds in months, optional dealer fee percent,
optional amount window in cents, active flag. -/
structure FinancePlan where
  id : String
  name : String
  aprMin : ℚ
  aprMax : ℚ
  termMinMonths : ℕ
  termMaxMonths : ℕ
  dealerFeePercent : Option ℚ
  amountMinCents : Option ℚ
  amountMaxCents : Option ℚ
  active : Bool
deriving DecidableEq

/-- Embedding of `FinancingCalculation` (finance.ts lines 15-22). -/
structure FinancingCalculation where
  monthlyPaymentMin : ℚ
  monthlyPaymentMax : ℚ
  totalInterestMin : ℚ
  totalInterestMax : ℚ
  totalPaymentMin : ℚ
  totalPaymentMax : ℚ
deriving DecidableEq

/-- One element of the `options` array built in
`calculateFinancingOptions` (finance.ts lines 72-83): the plan fields
echoed next to the spread payment calculation (kept nested as
`payments`). -/
structure FinancingOption where
  id : String
  name : String
  aprMin : ℚ
  aprMax : ℚ
  termMinMonths : ℕ
  termMaxMonths : ℕ
  dealerFeePercent : Option ℚ
  amountMinCents : Option ℚ
  amountMaxCents : Option ℚ
  payments : FinancingCalculation
deriving DecidableEq

/-- Model of `Math.min(...xs)` over a possibly-empty list: the empty spread gives
`Infinity`, modelled as `⊤` in `WithTop ℚ`. -/
def jsMathMin (l : List ℚ) : WithTop ℚ :=
  l.foldr (fun x acc => min (x : WithTop ℚ) acc) ⊤

/-- Model of `Math.max(...xs)` over a possibly-empty list: the empty spread gives
`-Infinity`, modelled as `⊥` in `WithBot ℚ`. -/
def jsMathMax (l : List ℚ) : WithBot ℚ :=
  l.foldr (fun x acc => max (x : WithBot ℚ) acc) ⊥

/-- Embedding of `FinancingResult` (finance.ts lines 24-30); the overall range keeps
the `Infinity` / `-Infinity` values JavaScript produces on an empty
options array. -/
structure FinancingResult where
  options : List FinancingOption
  monthlyMin : WithTop ℚ
  monthlyMax : WithBot ℚ
deriving DecidableEq

/-- The error thrown by `calculateFinancingOptions`:
`throw new Error('No financing options available')` (finance.ts
line 52). -/
inductive FinanceError where
  | noFinancingAvailable
deriving DecidableEq

/-- Embedding of `calculateMonthlyPayment` (finance.ts lines 139-154): the zero-rate
branch returns `principal / termMonths` exactly (unrounded); otherwise
the standard amortization formula rounded to the cent
(`Math.round(x * 100) / 100`; Mathlib's `round` is the same
floor-of-plus-half rounding). -/
def calculateMonthlyPayment (principal annualRate : ℚ) (termMonths : ℕ) : ℚ :=
  if annualRate = 0 then principal / termMonths
  else
    let monthlyRate := annualRate / 12
    let monthlyPayment :=
      principal * monthlyRate * (1 + monthlyRate) ^ termMonths /
        ((1 + monthlyRate) ^ termMonths - 1)
    (round (monthlyPayment * 100) : ℚ) / 100

/-- Embedding of `calculatePaymentRange` (finance.ts lines 98-137): dealer fee
inflates the principal, the minimum payment pairs the lowest APR with
the longest term, the maximum pairs the highest APR with the shortest
term. -/
def calculatePaymentRange (principal aprMin aprMax : ℚ)
    (termMinMonths termMaxMonths : ℕ) (dealerFeePercent : ℚ) :
    FinancingCalculation :=
  let adjustedPrincipal := principal * (1 + dealerFeePercent)
  let monthlyMin := calculateMonthlyPayment adjustedPrincipal aprMin termMaxMonths
  let monthlyMax := calculateMonthlyPayment adjustedPrincipal aprMax termMinMonths
  let totalPaymentMin := monthlyMin * termMaxMonths
  let totalPaymentMax := monthlyMax * termMinMonths
  { monthlyPaymentMin := monthlyMin
    monthlyPaymentMax := monthlyMax
    totalInterestMin := totalPaymentMin - adjustedPrincipal
    totalInterestMax := totalPaymentMax - adjustedPrincipal
    totalPaymentMin := totalPaymentMin
    totalPaymentMax := totalPaymentMax }

/-- The `where` clause of the `findMany` in `calculateFinancingOptions`
(finance.ts lines 41-49): active, and `amountMinCents` either null or
at most `loanAmount * 100`. Note it does not constrain
`amountMaxCents`. -/
def dbPlanFilter (loanAmount : ℚ) (p : FinancePlan) : Bool :=
  p.active &&
  (match p.amountMinCents with
    | none => true
    | some m => decide (m ≤ loanAmount * 100))

/-- The in-memory `filter` of `calculateFinancingOptions` (finance.ts
lines 56-61): `loanAmount` within `[amountMin, amountMax]`, a null max
meaning `Infinity` (every amount passes). -/
def windowFilter (loanAmount : ℚ) (p : FinancePlan) : Bool :=
  (decide ((match p.amountMinCents with
    | some m => m / 100
    | none => 0) ≤ loanAmount)) &&
  (match p.amountMaxCents with
    | some m => decide (loanAmount ≤ m / 100)
    | none => true)

/-- The `map` body of `calculateFinancingOptions` (finance.ts lines
62-84): plan fields echoed next to the payment range computed on
percent-to-fraction-converted APRs and dealer fee (a null dealer fee
contributes 0). -/
def mkFinancingOption (loanAmount : ℚ) (p : FinancePlan) : FinancingOption :=
  { id := p.id
    name := p.name
    aprMin := p.aprMin
    aprMax := p.aprMax
    termMinMonths := p.termMinMonths
    termMaxMonths := p.termMaxMonths
    dealerFeePercent := p.dealerFeePercent
    amountMinCents := p.amountMinCents
    amountMaxCents := p.amountMaxCents
    payments := calculatePaymentRange loanAmount (p.aprMin / 100) (p.aprMax / 100)
      p.termMinMonths p.termMaxMonths
      (match p.dealerFeePercent with
        | some d => d / 100
        | none => 0) }

/-- Embedding of `calculateFinancingOptions` (finance.ts lines 39-96), with the
`financePlan` table passed explicitly: the database-level filter, the
empty-check that throws, the in-memory window filter, the per-plan
payment ranges, and the overall min/max range. -/
def calculateFinancingOptions (allPlans : List FinancePlan) (loanAmount : ℚ) :
    Except FinanceError FinancingResult :=
  let plans := allPlans.filter (dbPlanFilter loanAmount)
  if plans.isEmpty then .error .noFinancingAvailable
  else
    let options := (plans.filter (windowFilter loanAmount)).map
      (mkFinancingOption loanAmount)
    .ok { options := options
          monthlyMin := jsMathMin (options.map (fun o => o.payments.monthlyPaymentMin))
          monthlyMax := jsMathMax (options.map (fun o => o.payments.monthlyPaymentMax)) }

/-- Modelled from the spec (§4.4 eligibility filter), for comparison with
the code's two-stage filtering: a plan is eligible when it is active and
the loan amount falls within its optional inclusive amount window. -/
def planEligiblePerSpec (p : FinancePlan) (loanAmount : ℚ) : Bool :=
  p.active &&
  (match p.amountMinCents with
    | some m => decide (m / 100 ≤ loanAmount)
    | none => true) &&
  (match p.amountMaxCents with
    | some m => decide (loanAmount ≤ m / 100)
    | none => true)

/-- Claim C7: the minimum monthly payment pairs the plan's lowest APR
with its longest term and the maximum pairs its highest APR with its
shortest term, both computed on the principal inflated by
`(1 + dealerFeePercent)`; a zero APR yields exactly `principal / n`
(the amortization formula and its vanishing denominator are never
evaluated in that branch); and every option in a financing result
carries the payment range computed this way from its source plan. -/
theorem payment_range_extremes (P a b : ℚ) (tMin tMax : ℕ) (fee : ℚ) :
    (calculatePaymentRange P a b tMin tMax fee).monthlyPaymentMin =
      calculateMonthlyPayment (P * (1 + fee)) a tMax ∧
    (calculatePaymentRange P a b tMin tMax fee).monthlyPaymentMax =
      calculateMonthlyPayment (P * (1 + fee)) b tMin ∧
    (∀ (Q : ℚ) (n : ℕ), calculateMonthlyPayment Q 0 n = Q / n) ∧
    (∀ (plans : List FinancePlan) (loan : ℚ) (r : FinancingResult),
      calculateFinancingOptions plans loan = .ok r →
      ∀ opt ∈ r.options, ∃ p ∈ plans,
        opt = mkFinancingOption loan p ∧
        opt.payments = calculatePaymentRange loan (p.aprMin / 100) (p.aprMax / 100)
          p.termMinMonths p.termMaxMonths
          (match p.dealerFeePercent with
            | some d => d / 100
            | none => 0)) := by
  refine ⟨rfl, rfl, fun Q n => by simp [calculateMonthlyPayment], ?_⟩
  intro plans loan r hr opt hopt
  unfold calculateFinancingOptions at hr
  by_cases hempty : (plans.filter (dbPlanFilter loan)).isEmpty
  · simp [hempty] at hr
  · simp only [hempty, if_neg, Bool.false_eq_true, not_false_iff] at hr
    cases hr
    simp only [List.mem_map] at hopt
    obtain ⟨p, hp, hbuild⟩ := hopt
    refine ⟨p, ?_, hbuild.symm, ?_⟩
    · exact List.mem_of_mem_filter (List.mem_of_mem_filter hp)
    · rw [← hbuild]
      rfl

/-- A fee-free 0% APR plan with no amount window. -/
def zeroAprPlan : FinancePlan :=
  { id := "plan-zero"
    name := "Zero APR"
    aprMin := 0
    aprMax := 0
    termMinMonths := 12
    termMaxMonths := 24
    dealerFeePercent := none
    amountMinCents := none
    amountMaxCents := none
    active := true }

/-- Witness for claim C7: on a 1200-dollar loan against the 0% plan, the
minimum payment is 1200/24 = 50 at the longest term, and the single
resulting option carries exactly the plan's computed payment range. -/
theorem payment_range_extremes_witness :
    (calculatePaymentRange 1200 0 0 12 24 0).monthlyPaymentMin = 50 ∧
    calculateMonthlyPayment 1200 0 24 = 50 ∧
    (∃ p ∈ [zeroAprPlan], (mkFinancingOption 1200 zeroAprPlan).payments =
      calculatePaymentRange 1200 (p.aprMin / 100) (p.aprMax / 100)
        p.termMinMonths p.termMaxMonths
        (match p.dealerFeePercent with
          | some d => d / 100
          | none => 0)) := by
  obtain ⟨h₁, -, h₃, h₄⟩ := payment_range_extremes 1200 0 0 12 24 0
  obtain ⟨r, hr⟩ : ∃ r, calculateFinancingOptions [zeroAprPlan] 1200 = .ok r :=
    ⟨_, rfl⟩
  have hmem : mkFinancingOption 1200 zeroAprPlan ∈ r.options := by
    cases hr
    simp [calculateFinancingOptions, dbPlanFilter, windowFilter, zeroAprPlan]
  obtain ⟨p, hp, -, hpay⟩ := h₄ [zeroAprPlan] 1200 r hr _ hmem
  refine ⟨?_, ?_, ⟨p, hp, hpay⟩⟩
  · rw [h₁, h₃]
    norm_num
  · rw [h₃]
    norm_num

/-- An active plan whose amount window caps at 10000 dollars
(`amountMaxCents = 1000000`). -/
def overLimitPlan : FinancePlan :=
  { id := "plan-capped"
    name := "Capped"
    aprMin := 0
    aprMax := 0
    termMinMonths := 12
    termMaxMonths := 12
    dealerFeePercent := none
    amountMinCents := none
    amountMaxCents := some 1000000
    active := true }

/-- Claim C2 (code_bug evaluation): for a 20000-dollar loan against a
single active plan capped at 10000 dollars, no plan is eligible in the
spec's sense, yet `calculateFinancingOptions` does not throw: the
database-level filter only checks `amountMinCents`, so the plan
survives it, the in-memory window filter then removes it, and the call
returns an empty options list with the degenerate
`Infinity`/`-Infinity` overall range. The explicit error is raised only
when the database-level filter alone comes back empty. -/
theorem no_eligible_plan_returns_empty_options :
    calculateFinancingOptions [overLimitPlan] 20000 =
      .ok { options := [], monthlyMin := ⊤, monthlyMax := ⊥ } ∧
    planEligiblePerSpec overLimitPlan 20000 = false ∧
    calculateFinancingOptions [] 20000 = .error .noFinancingAvailable := by
  refine ⟨?_, ?_, rfl⟩
  · norm_num [calculateFinancingOptions, dbPlanFilter, windowFilter,
      overLimitPlan, jsMathMin, jsMathMax]
  · norm_num [planEligiblePerSpec, overLimitPlan]

/-! ## Geometry (src/lib/calculations/pitch.ts) -/

/-- Embedding of `calculatePitchMultiplier` (pitch.ts lines 11-16):
`sqrt(1 + (rise/12)^2)`, written in the source as
`riseRatio * riseRatio`. -/
noncomputable def calculatePitchMultiplier (pitchRisePer12 : ℚ) : ℝ :=
  Real.sqrt (1 + ((pitchRisePer12 : ℝ) / 12) * ((pitchRisePer12 : ℝ) / 12))

/-- Embedding of `getPitchTier` (pitch.ts lines 18-22). -/
def getPitchTier (pitchRisePer12 : ℚ) : PitchTier :=
  if pitchRisePer12 ≤ 4 then .LOW
  else if pitchRisePer12 ≤ 7 then .MEDIUM
  else .STEEP

/-- Embedding of `PitchCalculation` (pitch.ts lines 3-9). -/
structure PitchCalculation where
  risePer12 : ℚ
  tier : PitchTier
  multiplier : ℝ
  slopedAreaSqFt : ℝ
  description : String

/-- Embedding of `calculateSlopedArea` (pitch.ts lines 24-49). -/
noncomputable def calculateSlopedArea (planAreaSqFt pitchRisePer12 : ℚ) :
    PitchCalculation :=
  let multiplier := calculatePitchMultiplier pitchRisePer12
  let tier := getPitchTier pitchRisePer12
  let slopedAreaSqFt := (planAreaSqFt : ℝ) * multiplier
  { risePer12 := pitchRisePer12
    tier := tier
    multiplier := multiplier
    slopedAreaSqFt := slopedAreaSqFt
    description :=
      match tier with
      | .LOW => "Low pitch (2/12 - 4/12)"
      | .MEDIUM => "Medium pitch (5/12 - 7/12)"
      | .STEEP => "Steep pitch (8/12 - 12/12)" }

/-- The error type the spec's geometry contract names. -/
inductive GeometryError where
  | validation (message : String)
deriving DecidableEq

/-- Outcome wrapper for `calculateSlopedArea`: pitch.ts contains no
`throw` statement and performs no input validation, so every call —
including non-positive areas and negative rises — returns normally;
the `Except` wrapper records that no error is ever produced. -/
noncomputable def calculateSlopedAreaRun (planAreaSqFt pitchRisePer12 : ℚ) :
    Except GeometryError PitchCalculation :=
  .ok (calculateSlopedArea planAreaSqFt pitchRisePer12)

/-- Counterexample to claim C9 as stated: the plan area -100 (non-positive,
with rise 0) and the negative rise -3 are both accepted — the geometry
operation returns normally, producing the surface area -100 for the
first input, instead of failing with a ValidationError. -/
theorem geometry_accepts_invalid_inputs :
    calculateSlopedAreaRun (-100) 0 = .ok (calculateSlopedArea (-100) 0) ∧
    (calculateSlopedArea (-100) 0).multiplier = 1 ∧
    (calculateSlopedArea (-100) 0).slopedAreaSqFt = -100 ∧
    calculateSlopedAreaRun (-100) (-3) = .ok (calculateSlopedArea (-100) (-3)) := by
  have hmult : calculatePitchMultiplier 0 = 1 := by
    unfold calculatePitchMultiplier
    norm_num
  refine ⟨rfl, ?_, ?_, rfl⟩
  · simp [calculateSlopedArea, hmult]
  · simp [calculateSlopedArea, hmult]

/-- Claim C9 amended: the geometry operations have no failure mode at all —
for every plan area and every rise, including non-positive areas and
negative rises, they return normally with
`slopedAreaSqFt = planAreaSqFt * sqrt(1 + (risePer12/12)^2)` and the
tier classification of `getPitchTier`; no ValidationError is raised
anywhere in pitch.ts. -/
theorem geometry_total_with_sqrt_formula (a r : ℚ) :
    calculateSlopedAreaRun a r = .ok (calculateSlopedArea a r) ∧
    (calculateSlopedArea a r).slopedAreaSqFt =
      (a : ℝ) * Real.sqrt (1 + ((r : ℝ) / 12) ^ 2) ∧
    (calculateSlopedArea a r).multiplier = Real.sqrt (1 + ((r : ℝ) / 12) ^ 2) ∧
    (calculateSlopedArea a r).tier = getPitchTier r := by
  refine ⟨rfl, ?_, ?_, rfl⟩
  · simp [calculateSlopedArea, calculatePitchMultiplier, pow_two]
  · simp [calculateSlopedArea, calculatePitchMultiplier, pow_two]

/-! ## Measurement chain (src/lib/measurement/measurement-service.ts) -/

/-- The externally observable behaviour of one measurement adapter for a
single request: its name, what its `isAvailable` probe does (`.error`
models a thrown exception), and what its `measure` call would do. The
measurement payload type is abstract (`μ`): the service never inspects
it. -/
structure AdapterBehavior (μ : Type) where
  name : String
  probe : Except String Bool
  measure : Except String μ

/-- The error thrown by `getRoofMeasurements`: every probe failed or
reported unavailable (`No measurement adapters available`, line 44,
carrying the last probe error), or the selected adapter's `measure`
call failed (`Measurement failed`, line 67). -/
inductive MeasurementError where
  | serviceUnavailable (lastError : Option String)
  | measurementFailed (message : String)
deriving DecidableEq

/-- The adapter-selection loop of `getRoofMeasurements` (lines 29-41):
walk the list in order; a probe returning true selects the adapter and
stops; a probe returning false moves on; a probe that throws is caught,
recorded as `lastError`, and the next candidate is tried. -/
def selectAdapter {μ : Type} :
    List (AdapterBehavior μ) → Option String →
    Option (AdapterBehavior μ) × Option String
  | [], lastErr => (none, lastErr)
  | a :: rest, lastErr =>
    match a.probe with
    | .ok true => (some a, lastErr)
    | .ok false => selectAdapter rest lastErr
    | .error e => selectAdapter rest (some e)

/-- The `measure` stage of `getRoofMeasurements` (lines 49-68) for the
selected adapter: a successful measurement is returned, a failure is
rethrown as `measurementFailed` — never retried against another
adapter. -/
def measureOutcome {μ : Type} (a : AdapterBehavior μ) : Except MeasurementError μ :=
  match a.measure with
  | .ok m => .ok m
  | .error e => .error (.measurementFailed e)

/-- Embedding of `getRoofMeasurements` (measurement-service.ts lines 22-69) over the
constructor's fixed adapter order `[ThirdParty, Manual, Heuristic]`
(lines 15-19): select the first available adapter, fail with
`serviceUnavailable` when none is, then run exactly the selected
adapter's measurement. (Persisting the result row is an external
database effect outside this embedding.) -/
def getRoofMeasurements {μ : Type} (thirdParty manual heuristic : AdapterBehavior μ) :
    Except MeasurementError μ :=
  match selectAdapter [thirdParty, manual, heuristic] none with
  | (none, lastErr) => .error (.serviceUnavailable lastErr)
  | (some a, _) => measureOutcome a

/-- Helper: which adapter the loop selects does not depend on the
`lastError` accumulator. -/
lemma selectAdapter_fst_indep {μ : Type} (l : List (AdapterBehavior μ))
    (le le' : Option String) :
    (selectAdapter l le).1 = (selectAdapter l le').1 := by
  induction l generalizing le le' with
  | nil => rfl
  | cons a rest ih =>
    rcases hp : a.probe with e | b
    · simp [selectAdapter, hp]
    · cases b
      · simp only [selectAdapter, hp]
        exact ih le le'
      · simp [selectAdapter, hp]

/-- Claim C8: the measurement comes from the first adapter in the fixed
order ThirdParty, Manual, Heuristic whose probe reports available — a
probe that throws or reports unavailable just moves selection to the
next candidate — and once an adapter is selected its `measure` outcome
is the entire request: a measure failure fails the request as
`measurementFailed` with no later adapter attempted (the conclusion
holds for arbitrary behaviours of the remaining adapters), and only
when no probe reports available does the request fail as
`serviceUnavailable`. -/
theorem adapter_chain_fixed_order {μ : Type} (tp ma he : AdapterBehavior μ) :
    (tp.probe = .ok true →
      getRoofMeasurements tp ma he = measureOutcome tp) ∧
    (tp.probe ≠ .ok true → ma.probe = .ok true →
      getRoofMeasurements tp ma he = measureOutcome ma) ∧
    (tp.probe ≠ .ok true → ma.probe ≠ .ok true → he.probe = .ok true →
      getRoofMeasurements tp ma he = measureOutcome he) ∧
    (tp.probe ≠ .ok true → ma.probe ≠ .ok true → he.probe ≠ .ok true →
      ∃ le, getRoofMeasurements tp ma he = .error (.serviceUnavailable le)) ∧
    (∀ (a : AdapterBehavior μ) (e : String), a.measure = .error e →
      measureOutcome a = .error (.measurementFailed e)) ∧
    (∀ (a : AdapterBehavior μ) (m : μ), a.measure = .ok m →
      measureOutcome a = .ok m) := by
  have hcase : ∀ (x : AdapterBehavior μ), x.probe ≠ .ok true →
      x.probe = .ok false ∨ ∃ e, x.probe = .error e := by
    intro x hx
    rcases hp : x.probe with e | b
    · exact Or.inr ⟨e, rfl⟩
    · cases b
      · exact Or.inl rfl
      · exact absurd hp hx
  refine ⟨?_, ?_, ?_, ?_, ?_, ?_⟩
  · intro h
    simp [getRoofMeasurements, selectAdapter, h]
  · intro h₁ h₂
    rcases hcase tp h₁ with h | ⟨e, h⟩ <;>
      simp [getRoofMeasurements, selectAdapter, h, h₂]
  · intro h₁ h₂ h₃
    rcases hcase tp h₁ with h | ⟨e, h⟩ <;>
      rcases hcase ma h₂ with h' | ⟨e', h'⟩ <;>
      simp [getRoofMeasurements, selectAdapter, h, h', h₃]
  · intro h₁ h₂ h₃
    rcases hcase tp h₁ with h | ⟨e, h⟩ <;>
      rcases hcase ma h₂ with h' | ⟨e', h'⟩ <;>
      rcases hcase he h₃ with h'' | ⟨e'', h''⟩ <;>
      · simp only [getRoofMeasurements, selectAdapter, h, h', h'']
        exact ⟨_, rfl⟩
  · intro a e h
    simp [measureOutcome, h]
  · intro a m h
    simp [measureOutcome, h]

/-- A third-party adapter whose availability probe throws. -/
def probeThrowingAdapter : AdapterBehavior Bool :=
  { name := "third-party"
    probe := .error "health probe timeout"
    measure := .ok true }

/-- A manual adapter that is available but whose measure call fails. -/
def availableFailingAdapter : AdapterBehavior Bool :=
  { name := "manual"
    probe := .ok true
    measure := .error "override store corrupt" }

/-- A heuristic adapter that is available and would succeed. -/
def availableSucceedingAdapter : AdapterBehavior Bool :=
  { name := "heuristic"
    probe := .ok true
    measure := .ok false }

/-- Witness for claim C8: the first probe throws and is skipped, the
second adapter is selected, and its measure failure fails the whole
request even though the third adapter was available and would have
succeeded. -/
theorem adapter_chain_fixed_order_witness :
    getRoofMeasurements probeThrowingAdapter availableFailingAdapter
        availableSucceedingAdapter =
      .error (.measurementFailed "override store corrupt") ∧
    availableSucceedingAdapter.measure = .ok false := by
  obtain ⟨-, h₂, -, -, h₅, -⟩ :=
    adapter_chain_fixed_order probeThrowingAdapter availableFailingAdapter
      availableSucceedingAdapter
  refine ⟨?_, rfl⟩
  rw [h₂ (by simp [probeThrowingAdapter]) rfl]
  exact h₅ availableFailingAdapter "override store corrupt" rfl
